import Mathlib

/-!
Shallow embedding of the JungleLabStudio core (src-tauri/src/config.rs,
main.rs, midi.rs, audio.rs) and verification of its specification claims.

Modelling conventions:
* `f32` values are modelled by `F32`: every finite `f32` value is an exact
  rational, so finite values carry a `ℚ`; the non-finite values `NaN`,
  `+inf`, `-inf` are separate constructors.  No claim performs float
  arithmetic on these values; they are only stored, serialized and compared.
* `u64` / `u8` fields are modelled as `Nat`; no arithmetic overflows them in
  the code under verification.
* `HashMap<String, LayerConfig>` is modelled as an association list with
  insert-replace semantics (`mapInsert` / `alookup`): `HashMap::insert`
  replaces the value of an existing key and otherwise adds the entry, and
  `HashMap::get` looks the key up.  List order plays no observable role.
* MIDI messages are byte strings, modelled as `List Nat`.
-/

namespace JungleLab

/-- Model of Rust `f32` values: finite values are exact rationals, and the
non-finite values are distinguished constructors. -/
inductive F32 where
  | finite (val : ℚ)
  | nan
  | inf
  | neginf
deriving DecidableEq

/-- `true` exactly on the finite `f32` values. -/
def F32.isFinite : F32 → Bool
  | .finite _ => true
  | _ => false

/-- `config.rs`: `struct LayerConfig { opacity: f32, fade_ms: u64,
thumbnail: String, midi_channel: u8 }`. -/
structure LayerConfig where
  opacity : F32
  fade_ms : Nat
  thumbnail : String
  midi_channel : Nat
deriving DecidableEq

/-- `config.rs`: `impl Default for LayerConfig`:
`Self { opacity: 1.0, fade_ms: 200, thumbnail: String::new(), midi_channel: 0 }`. -/
def LayerConfig.default : LayerConfig :=
  { opacity := F32.finite 1, fade_ms := 200, thumbnail := "", midi_channel := 0 }

/-- `HashMap::get(&k)`: association-list lookup. -/
def alookup {α : Type} (k : String) : List (String × α) → Option α
  | [] => none
  | (k', v) :: rest => if k' = k then some v else alookup k rest

/-- `HashMap::insert(k, v)`: replace the value at `k` if present, otherwise
add the entry. -/
def mapInsert {α : Type} (k : String) (v : α) : List (String × α) → List (String × α)
  | [] => [(k, v)]
  | (k', v') :: rest => if k' = k then (k, v) :: rest else (k', v') :: mapInsert k v rest

/-- `config.rs`: `struct Config { layers: HashMap<String, LayerConfig> }`. -/
structure Config where
  layers : List (String × LayerConfig)
deriving DecidableEq

/-- `config.rs`: `impl Default for Config`: inserts layers `"A"`, `"B"`, `"C"`
with midi channels 14, 15, 16 (all other fields from `LayerConfig::default`)
into an empty map. -/
def Config.default : Config :=
  { layers :=
      mapInsert "C" { LayerConfig.default with midi_channel := 16 }
        (mapInsert "B" { LayerConfig.default with midi_channel := 15 }
          (mapInsert "A" { LayerConfig.default with midi_channel := 14 } [])) }

/-- `main.rs`: command `set_layer_opacity(layer, opacity)`: under the state
lock, if the key is present mutate only its `opacity` field in place,
otherwise insert `LayerConfig { opacity, ..Default::default() }`. -/
def set_layer_opacity (cfg : Config) (layer : String) (opacity : F32) : Config :=
  match alookup layer cfg.layers with
  | some l => { layers := mapInsert layer { l with opacity := opacity } cfg.layers }
  | none => { layers := mapInsert layer { LayerConfig.default with opacity := opacity } cfg.layers }

/-- `main.rs`: command `get_config()`: returns a clone of the locked state. -/
def get_config (cfg : Config) : Config := cfg

/-- A sequence of `set_layer_opacity` commands applied in order to the store. -/
def applyCalls (cfg : Config) (calls : List (String × F32)) : Config :=
  calls.foldl (fun c p => set_layer_opacity c p.1 p.2) cfg

/-- `midi.rs`: the body of the `midi_in.connect` message callback in `run`.
If the message has at least 3 bytes it reads `status = message[0]`, takes the
zero-indexed channel as the lower 4 bits, and iff the channel is in `13..=15`
emits `(channel + 1, message[1], message[2])`; otherwise nothing is emitted.
The byte accesses are only reachable under the length guard (the index
bounds below are discharged from the guard's hypothesis). -/
def midiCallback (message : List Nat) : Option (Nat × Nat × Nat) :=
  if h : 3 ≤ message.length then
    let status := message.get ⟨0, by omega⟩
    let channel := status &&& 0x0F
    if 13 ≤ channel ∧ channel ≤ 15 then
      some (channel + 1, message.get ⟨1, by omega⟩, message.get ⟨2, by omega⟩)
    else
      none
  else
    none

/-!
Persistence (`Config::save` / `Config::load`).

`save` runs `serde_json::to_string_pretty(self)` and writes the text;
`load` runs `fs::read_to_string` and `serde_json::from_str`.  We model file
contents at the level of the JSON document tree: `serde_json`'s printer and
parser round-trip its own output text exactly (its float printing is
shortest-round-trip), so the text layer is identified with the tree.  A file
that is missing or unreadable is `none`; a file whose text is not valid JSON
for this schema is represented by any tree the deserializer rejects. -/

/-- A JSON document tree.  `serde_json` prints every finite float in a
shortest decimal form that parses back to the identical value, so a number
node carries the exact rational value. -/
inductive Json where
  | null
  | num (q : ℚ)
  | str (s : String)
  | obj (fields : List (String × Json))

/-- `serde_json` serialization of an `f32`: a finite value is written as a
number; `NaN` and the infinities are written as `null`. -/
def f32toJson : F32 → Json
  | .finite q => .num q
  | _ => .null

/-- `serde_json` deserialization of an `f32`: accepts a number, rejects
every other node (in particular `null`). -/
def f32fromJson : Json → Option F32
  | .num q => some (.finite q)
  | _ => none

/-- `serde_json` deserialization of a `u64`: accepts an integer number in
`[0, 2^64)`, rejects everything else. -/
def u64fromJson : Json → Option Nat
  | .num q => if q.den = 1 ∧ 0 ≤ q.num ∧ q.num < 2 ^ 64 then some q.num.toNat else none
  | _ => none

/-- `serde_json` deserialization of a `u8`: accepts an integer number in
`[0, 256)`, rejects everything else. -/
def u8fromJson : Json → Option Nat
  | .num q => if q.den = 1 ∧ 0 ≤ q.num ∧ q.num < 256 then some q.num.toNat else none
  | _ => none

/-- `serde_json` deserialization of a `String`. -/
def strFromJson : Json → Option String
  | .str s => some s
  | _ => none

/-- Derived `Serialize` for `LayerConfig`: an object with the four fields. -/
def LayerConfig.toJson (l : LayerConfig) : Json :=
  .obj [("opacity", f32toJson l.opacity),
        ("fade_ms", .num l.fade_ms),
        ("thumbnail", .str l.thumbnail),
        ("midi_channel", .num l.midi_channel)]

/-- Derived `Deserialize` for `LayerConfig`: requires an object providing
all four fields at their declared types. -/
def LayerConfig.fromJson : Json → Option LayerConfig
  | .obj fields => do
      let o ← f32fromJson (← alookup "opacity" fields)
      let f ← u64fromJson (← alookup "fade_ms" fields)
      let t ← strFromJson (← alookup "thumbnail" fields)
      let m ← u8fromJson (← alookup "midi_channel" fields)
      some { opacity := o, fade_ms := f, thumbnail := t, midi_channel := m }
  | _ => none

/-- Derived `Deserialize` for the layer map: each entry's value must
deserialize as a `LayerConfig`. -/
def layersFromJson : List (String × Json) → Option (List (String × LayerConfig))
  | [] => some []
  | (k, j) :: rest =>
      match LayerConfig.fromJson j with
      | some l =>
          match layersFromJson rest with
          | some m => some ((k, l) :: m)
          | none => none
      | none => none

/-- Derived `Serialize` for `Config`: `{ "layers": { key: layer, ... } }`. -/
def Config.toJson (cfg : Config) : Json :=
  .obj [("layers", .obj (cfg.layers.map fun p => (p.1, p.2.toJson)))]

/-- Derived `Deserialize` for `Config`. -/
def Config.fromJson : Json → Option Config
  | .obj fields => do
      let lj ← alookup "layers" fields
      match lj with
      | .obj lfields => do
          let m ← layersFromJson lfields
          some { layers := m }
      | _ => none
  | _ => none

/-- The filesystem, as seen through `fs::read_to_string` + JSON parsing:
each path holds either a document tree or nothing (missing/unreadable). -/
def FileSystem : Type := String → Option Json

/-- `config.rs`: `Config::load(path)`: if the file reads and parses, return
the parsed config, otherwise `Config::default()`.  No error is surfaced. -/
def Config.load (fs : FileSystem) (path : String) : Config :=
  match fs path with
  | some j =>
      match Config.fromJson j with
      | some cfg => cfg
      | none => Config.default
  | none => Config.default

/-- `config.rs`: `Config::save(path)`: serialize the snapshot and write it
at the path.  Serialization of this string-keyed structure never fails; the
model covers the successful write, returning the updated filesystem. -/
def Config.save (cfg : Config) (fs : FileSystem) (path : String) : FileSystem :=
  fun p => if p = path then some cfg.toJson else fs p

/-- Two snapshots are equivalent when every key resolves to the same layer
parameters (same key set; per key equal opacity, fade, thumbnail, channel). -/
def equivSnapshot (c₁ c₂ : Config) : Prop :=
  ∀ k : String, alookup k c₁.layers = alookup k c₂.layers

/-- A snapshot whose `"A"` layer carries a `NaN` opacity: `serde_json`
writes the non-finite float as `null`, which its own deserializer then
rejects for an `f32` field, so `Config::load` falls back to the default. -/
def nanConfig : Config :=
  { layers := [("A", { opacity := F32.nan, fade_ms := 5, thumbnail := "t", midi_channel := 7 })] }

/-!
Audio pipeline (`audio.rs`): the body of the `build_input_stream` data
callback in `run`.  The complex buffer entries are `f32` pairs; the values
flowing through the transform are modelled as exact rationals (the claims
settled here do not depend on rounding), and the magnitude, `c.norm()` =
`sqrt(re^2 + im^2)`, lands in `ℝ`.  The FFT itself is library code
(`rustfft`); `fft.process(&mut buffer)` transforms the 1024-entry buffer in
place, so it is modelled as an arbitrary function on 1024-entry buffers. -/

/-- `audio.rs`: `let fft_size = 1024usize`. -/
def fft_size : Nat := 1024

/-- One entry of the `Vec<Complex<f32>>` buffer. -/
structure Cx where
  re : ℚ
  im : ℚ
deriving DecidableEq

/-- `c.norm()`: the Euclidean norm of a complex value. -/
noncomputable def Cx.norm (c : Cx) : ℝ :=
  Real.sqrt ((c.re : ℝ) ^ 2 + (c.im : ℝ) ^ 2)

/-- The sample-copy loop: `for (i, sample) in
data.iter().enumerate().take(fft_size) { buffer[i].re = *sample;
buffer[i].im = 0.0; }`.  Entries at indices `≥ data.len()` keep the value
the buffer already held. -/
def fillBuffer (buffer : Fin fft_size → Cx) (data : List ℚ) : Fin fft_size → Cx :=
  fun i => if h : i.val < data.length then { re := data.get ⟨i.val, h⟩, im := 0 } else buffer i

/-- The whole data callback: fill the reusable buffer from the incoming
samples, transform it in place, and emit the per-bin magnitudes.  Returns
the buffer left for the next callback and the emitted magnitude frame
(`fft` is pure here, so naming the transformed buffer once or writing it
twice is the same value). -/
noncomputable def audioCallback (fft : (Fin fft_size → Cx) → Fin fft_size → Cx)
    (buffer : Fin fft_size → Cx) (data : List ℚ) :
    (Fin fft_size → Cx) × List ℝ :=
  (fft (fillBuffer buffer data),
   List.ofFn fun i => (fft (fillBuffer buffer data) i).norm)

/-! Helper lemmas about the association-list map operations. -/

theorem alookup_mapInsert_self {α : Type} (k : String) (v : α) (m : List (String × α)) :
    alookup k (mapInsert k v m) = some v := by
  induction m with
  | nil => simp [mapInsert, alookup]
  | cons p rest ih =>
      obtain ⟨k', v'⟩ := p
      by_cases h : k' = k
      · simp [mapInsert, h, alookup]
      · simp [mapInsert, h, alookup, ih]

theorem alookup_mapInsert_other {α : Type} (k k' : String) (hne : k ≠ k') (v : α)
    (m : List (String × α)) : alookup k' (mapInsert k v m) = alookup k' m := by
  induction m with
  | nil => simp [mapInsert, alookup, hne]
  | cons p rest ih =>
      obtain ⟨k'', v''⟩ := p
      by_cases h : k'' = k
      · subst h
        simp [mapInsert, alookup, hne, ih]
      · simp [mapInsert, h, alookup, ih]

theorem alookup_append {α : Type} (k : String) (l₁ l₂ : List (String × α)) :
    alookup k (l₁ ++ l₂) = (alookup k l₁).or (alookup k l₂) := by
  induction l₁ with
  | nil => simp [alookup]
  | cons p rest ih =>
      obtain ⟨k', v⟩ := p
      by_cases h : k' = k
      · simp [alookup, h]
      · simp [alookup, h, ih]

theorem alookup_set_layer_opacity_self (cfg : Config) (k : String) (v : F32) :
    alookup k (set_layer_opacity cfg k v).layers =
      some { (alookup k cfg.layers).getD LayerConfig.default with opacity := v } := by
  unfold set_layer_opacity
  cases h : alookup k cfg.layers <;> simp [h, alookup_mapInsert_self]

theorem alookup_set_layer_opacity_other (cfg : Config) (k k' : String) (hne : k ≠ k')
    (v : F32) : alookup k' (set_layer_opacity cfg k v).layers = alookup k' cfg.layers := by
  unfold set_layer_opacity
  cases h : alookup k cfg.layers <;> simp [alookup_mapInsert_other k k' hne]

theorem applyCalls_cons (cfg : Config) (p : String × F32) (calls : List (String × F32)) :
    applyCalls cfg (p :: calls) = applyCalls (set_layer_opacity cfg p.1 p.2) calls := rfl

/-! Projection lemmas for the audio callback. -/

theorem audioCallback_fst (fft : (Fin fft_size → Cx) → Fin fft_size → Cx)
    (buffer : Fin fft_size → Cx) (data : List ℚ) :
    (audioCallback fft buffer data).1 = fft (fillBuffer buffer data) := rfl

theorem audioCallback_snd (fft : (Fin fft_size → Cx) → Fin fft_size → Cx)
    (buffer : Fin fft_size → Cx) (data : List ℚ) :
    (audioCallback fft buffer data).2 =
      List.ofFn (fun i => (fft (fillBuffer buffer data) i).norm) := by
  simp only [audioCallback]

/-! Helper lemmas about the JSON round trip. -/

theorem layerConfig_fromJson_toJson (l : LayerConfig) (q : ℚ)
    (hq : l.opacity = F32.finite q) (hf : l.fade_ms < 2 ^ 64) (hm : l.midi_channel < 256) :
    LayerConfig.fromJson l.toJson = some l := by
  obtain ⟨o, f, t, m⟩ := l
  simp at hq hf hm
  subst hq
  simp [LayerConfig.toJson, LayerConfig.fromJson, f32toJson, f32fromJson,
        u64fromJson, u8fromJson, strFromJson, alookup, hf, hm]

theorem layersFromJson_map (m : List (String × LayerConfig))
    (h : ∀ p ∈ m, LayerConfig.fromJson p.2.toJson = some p.2) :
    layersFromJson (m.map fun p => (p.1, p.2.toJson)) = some m := by
  induction m with
  | nil => rfl
  | cons p rest ih =>
      simp only [List.map_cons, layersFromJson]
      rw [h p (by simp), ih (fun q hq => h q (by simp [hq]))]

theorem config_fromJson_toJson (cfg : Config)
    (h : ∀ p ∈ cfg.layers, p.2.opacity.isFinite = true ∧
        p.2.fade_ms < 2 ^ 64 ∧ p.2.midi_channel < 256) :
    Config.fromJson (Config.toJson cfg) = some cfg := by
  obtain ⟨layers⟩ := cfg
  have hlayers : layersFromJson (layers.map fun p => (p.1, p.2.toJson)) = some layers := by
    refine layersFromJson_map layers (fun p hp => ?_)
    obtain ⟨hfin, hf, hm⟩ := h p hp
    cases hop : p.2.opacity with
    | finite q => exact layerConfig_fromJson_toJson p.2 q hop hf hm
    | nan => rw [hop] at hfin; simp [F32.isFinite] at hfin
    | inf => rw [hop] at hfin; simp [F32.isFinite] at hfin
    | neginf => rw [hop] at hfin; simp [F32.isFinite] at hfin
  simp [Config.toJson, Config.fromJson, alookup, hlayers]

/-- C1: for every raw MIDI message of at least 3 bytes, the callback emits
exactly one event iff the lower 4 bits of the status byte lie in the
zero-indexed range `[13, 15]`; the emitted triple is
`(channel + 1, second byte, third byte)`, so every emitted channel value is
in `14..16`, and messages whose channel is outside `[13, 15]` emit
nothing. -/
theorem midi_channel_filter (status note vel : Nat) (rest : List Nat) :
    midiCallback (status :: note :: vel :: rest) =
      (if 13 ≤ status &&& 0x0F ∧ status &&& 0x0F ≤ 15 then
        some ((status &&& 0x0F) + 1, note, vel)
      else none) ∧
    ∀ c n v, midiCallback (status :: note :: vel :: rest) = some (c, n, v) →
      14 ≤ c ∧ c ≤ 16 := by
  have hlen : 3 ≤ (status :: note :: vel :: rest).length := by
    simp [List.length]
  have hcall : midiCallback (status :: note :: vel :: rest) =
      (if 13 ≤ status &&& 0x0F ∧ status &&& 0x0F ≤ 15 then
        some ((status &&& 0x0F) + 1, note, vel)
      else none) := by
    unfold midiCallback
    rw [dif_pos hlen]
    rfl
  refine ⟨hcall, fun c n v h => ?_⟩
  rw [hcall] at h
  by_cases hc : 13 ≤ status &&& 0x0F ∧ status &&& 0x0F ≤ 15
  · rw [if_pos hc] at h
    obtain ⟨h1, h2⟩ := Prod.mk.injEq .. ▸ Option.some.inj h
    omega
  · rw [if_neg hc] at h
    cases h

/-- C1 witness: channel 13 note-on (status `0x9D`) emits the triple with
1-indexed channel 14. -/
theorem midi_channel_filter_witness :
    midiCallback [157, 60, 100] = some (14, 60, 100) := by
  have h := (midi_channel_filter 157 60 100 []).1
  rw [h]
  decide

/-- C8: a raw MIDI message shorter than 3 bytes is ignored: the callback
emits nothing, and the byte accesses are reachable only under the length
guard (in the embedding the index proofs are discharged from that guard),
so processing never fails. -/
theorem midi_short_message_ignored (message : List Nat) (h : message.length < 3) :
    midiCallback message = none := by
  unfold midiCallback
  rw [dif_neg (by omega)]

/-- C8 witness: the two-byte message `[0x9D, 60]` is ignored. -/
theorem midi_short_message_ignored_witness : midiCallback [157, 60] = none :=
  midi_short_message_ignored [157, 60] (by decide)

/-- C7: `set_layer_opacity` on a key absent from the snapshot inserts a new
layer with the given opacity and all other fields from
`LayerConfig::default`; every other key's entry is unchanged. -/
theorem set_layer_opacity_insert_absent (cfg : Config) (k : String) (v : F32)
    (h : alookup k cfg.layers = none) :
    alookup k (set_layer_opacity cfg k v).layers =
      some { LayerConfig.default with opacity := v } ∧
    ∀ k', k' ≠ k → alookup k' (set_layer_opacity cfg k v).layers = alookup k' cfg.layers := by
  constructor
  · simp [set_layer_opacity, h, alookup_mapInsert_self]
  · intro k' hk'
    exact alookup_set_layer_opacity_other cfg k k' (fun e => hk' e.symm) v

/-- C7 witness: inserting opacity value `2` under the fresh key `"X"` of the
default store. -/
theorem set_layer_opacity_insert_absent_witness :
    alookup "X" (set_layer_opacity Config.default "X" (F32.finite 2)).layers =
      some { LayerConfig.default with opacity := F32.finite 2 } ∧
    ∀ k', k' ≠ "X" →
      alookup k' (set_layer_opacity Config.default "X" (F32.finite 2)).layers =
        alookup k' Config.default.layers :=
  set_layer_opacity_insert_absent Config.default "X" (F32.finite 2) (by decide)

/-- C10: the layer inserted by `set_layer_opacity` for an absent key has
concretely fade 200 ms, empty thumbnail and midi channel 0 — a channel
outside the `14..16` range that the three startup layers carry. -/
theorem set_layer_opacity_insert_channel_zero (cfg : Config) (k : String) (v : F32)
    (h : alookup k cfg.layers = none) :
    alookup k (set_layer_opacity cfg k v).layers =
      some { opacity := v, fade_ms := 200, thumbnail := "", midi_channel := 0 } ∧
    ¬(14 ≤ (0 : Nat) ∧ (0 : Nat) ≤ 16) ∧
    (alookup "A" Config.default.layers).map LayerConfig.midi_channel = some 14 ∧
    (alookup "B" Config.default.layers).map LayerConfig.midi_channel = some 15 ∧
    (alookup "C" Config.default.layers).map LayerConfig.midi_channel = some 16 := by
  refine ⟨?_, by decide, by decide, by decide, by decide⟩
  simp [set_layer_opacity, h, alookup_mapInsert_self, LayerConfig.default]

/-- C10 witness: inserting under the fresh key `"D"` of the default store. -/
theorem set_layer_opacity_insert_channel_zero_witness :
    alookup "D" (set_layer_opacity Config.default "D" (F32.finite 1)).layers =
      some { opacity := F32.finite 1, fade_ms := 200, thumbnail := "", midi_channel := 0 } ∧
    ¬(14 ≤ (0 : Nat) ∧ (0 : Nat) ≤ 16) ∧
    (alookup "A" Config.default.layers).map LayerConfig.midi_channel = some 14 ∧
    (alookup "B" Config.default.layers).map LayerConfig.midi_channel = some 15 ∧
    (alookup "C" Config.default.layers).map LayerConfig.midi_channel = some 16 :=
  set_layer_opacity_insert_channel_zero Config.default "D" (F32.finite 1) (by decide)

/-- C3: whenever the file at the path is missing, unreadable, or fails to
parse, `Config::load` returns the exact default snapshot — three layers
`"A"`, `"B"`, `"C"` with midi channels 14, 15, 16, each with opacity 1.0
and fade 200 ms — and surfaces no failure. -/
theorem load_failure_gives_default (fs : FileSystem) (path : String)
    (h : fs path = none ∨ ∃ j, fs path = some j ∧ Config.fromJson j = none) :
    Config.load fs path = Config.default ∧
    alookup "A" (Config.load fs path).layers =
      some { opacity := F32.finite 1, fade_ms := 200, thumbnail := "", midi_channel := 14 } ∧
    alookup "B" (Config.load fs path).layers =
      some { opacity := F32.finite 1, fade_ms := 200, thumbnail := "", midi_channel := 15 } ∧
    alookup "C" (Config.load fs path).layers =
      some { opacity := F32.finite 1, fade_ms := 200, thumbnail := "", midi_channel := 16 } ∧
    (Config.load fs path).layers.length = 3 := by
  have hload : Config.load fs path = Config.default := by
    rcases h with h | ⟨j, hj, hp⟩
    · simp [Config.load, h]
    · simp [Config.load, hj, hp]
  rw [hload]
  exact ⟨rfl, by decide, by decide, by decide, by decide⟩

/-- C3 witness: loading from a filesystem with no readable file. -/
theorem load_failure_gives_default_witness :
    Config.load (fun _ => none) "config.json" = Config.default ∧
    alookup "A" (Config.load (fun _ => none) "config.json").layers =
      some { opacity := F32.finite 1, fade_ms := 200, thumbnail := "", midi_channel := 14 } ∧
    alookup "B" (Config.load (fun _ => none) "config.json").layers =
      some { opacity := F32.finite 1, fade_ms := 200, thumbnail := "", midi_channel := 15 } ∧
    alookup "C" (Config.load (fun _ => none) "config.json").layers =
      some { opacity := F32.finite 1, fade_ms := 200, thumbnail := "", midi_channel := 16 } ∧
    (Config.load (fun _ => none) "config.json").layers.length = 3 :=
  load_failure_gives_default (fun _ => none) "config.json" (Or.inl rfl)

/-- C2: after any sequence of `set_layer_opacity` calls, `get_config`
returns a snapshot in which every targeted key holds the last opacity set
for it (non-opacity fields of keys that already existed are untouched), and
every key not targeted by any call resolves exactly as before. -/
theorem set_layer_opacity_last_write_wins (cfg : Config) (calls : List (String × F32))
    (k : String) :
    (∀ v, alookup k calls.reverse = some v →
        ∃ l, alookup k (get_config (applyCalls cfg calls)).layers = some l ∧
          l.opacity = v ∧
          ∀ l₀, alookup k cfg.layers = some l₀ →
            l.fade_ms = l₀.fade_ms ∧ l.thumbnail = l₀.thumbnail ∧
              l.midi_channel = l₀.midi_channel) ∧
    (alookup k calls.reverse = none →
        alookup k (get_config (applyCalls cfg calls)).layers = alookup k cfg.layers) := by
  induction calls generalizing cfg with
  | nil =>
      constructor
      · intro v hv
        simp [alookup] at hv
      · intro _
        rfl
  | cons p rest ih =>
      obtain ⟨k0, v0⟩ := p
      have hstep : applyCalls cfg ((k0, v0) :: rest) =
          applyCalls (set_layer_opacity cfg k0 v0) rest := rfl
      constructor
      · intro v hv
        rw [List.reverse_cons, alookup_append] at hv
        rw [hstep]
        cases hr : alookup k rest.reverse with
        | some v' =>
            rw [hr] at hv
            simp at hv
            subst hv
            obtain ⟨l, hl, hop, hfields⟩ := (ih (set_layer_opacity cfg k0 v0)).1 v' hr
            refine ⟨l, hl, hop, fun l₀ h₀ => ?_⟩
            by_cases hk : k0 = k
            · subst hk
              have hself : alookup k0 (set_layer_opacity cfg k0 v0).layers =
                  some { l₀ with opacity := v0 } := by
                rw [alookup_set_layer_opacity_self, h₀]
                rfl
              have := hfields _ hself
              simpa using this
            · have hother : alookup k (set_layer_opacity cfg k0 v0).layers = some l₀ := by
                rw [alookup_set_layer_opacity_other cfg k0 k hk, h₀]
              exact hfields _ hother
        | none =>
            rw [hr] at hv
            simp [alookup] at hv
            obtain ⟨hk, hv0⟩ := hv
            subst hk
            subst hv0
            have heq := (ih (set_layer_opacity cfg k0 v0)).2 hr
            rw [get_config] at heq ⊢
            rw [heq, alookup_set_layer_opacity_self]
            refine ⟨_, rfl, rfl, fun l₀ h₀ => ?_⟩
            rw [h₀]
            simp
      · intro hnone
        rw [List.reverse_cons, alookup_append] at hnone
        cases hr : alookup k rest.reverse with
        | some v' =>
            rw [hr] at hnone
            simp at hnone
        | none =>
            rw [hr] at hnone
            simp [alookup] at hnone
            rw [hstep]
            have heq := (ih (set_layer_opacity cfg k0 v0)).2 hr
            rw [get_config] at heq ⊢
            rw [heq]
            exact alookup_set_layer_opacity_other cfg k0 k (by simpa using hnone) v0

/-- C2 witness: two writes to `"A"` of the default store — the snapshot
holds the second opacity for `"A"`, keeps its other fields, and leaves
`"B"` untouched. -/
theorem set_layer_opacity_last_write_wins_witness :
    (∃ l, alookup "A" (get_config (applyCalls Config.default
          [("A", F32.finite 3), ("A", F32.finite 7)])).layers = some l ∧
        l.opacity = F32.finite 7 ∧
        ∀ l₀, alookup "A" Config.default.layers = some l₀ →
          l.fade_ms = l₀.fade_ms ∧ l.thumbnail = l₀.thumbnail ∧
            l.midi_channel = l₀.midi_channel) ∧
    alookup "B" (get_config (applyCalls Config.default
        [("A", F32.finite 3), ("A", F32.finite 7)])).layers =
      alookup "B" Config.default.layers :=
  ⟨(set_layer_opacity_last_write_wins Config.default
      [("A", F32.finite 3), ("A", F32.finite 7)] "A").1
      (F32.finite 7) (by decide),
   (set_layer_opacity_last_write_wins Config.default
      [("A", F32.finite 3), ("A", F32.finite 7)] "B").2 (by decide)⟩

/-- C5: when a callback delivers fewer than 1024 samples, only the first
`data.len()` entries of the reusable complex buffer are overwritten before
the transform (each to the incoming sample with zero imaginary part); every
tail entry keeps exactly the value the previous block's processing left in
the buffer, with no zeroing. -/
theorem audio_partial_block_keeps_stale_tail
    (fft : (Fin fft_size → Cx) → Fin fft_size → Cx) (buffer : Fin fft_size → Cx)
    (data : List ℚ) (h : data.length < fft_size) :
    (audioCallback fft buffer data).1 = fft (fillBuffer buffer data) ∧
    (∀ (i : Fin fft_size) (h2 : i.val < data.length),
        fillBuffer buffer data i = { re := data.get ⟨i.val, h2⟩, im := 0 }) ∧
    ∀ i : Fin fft_size, data.length ≤ i.val → fillBuffer buffer data i = buffer i := by
  refine ⟨rfl, ?_, ?_⟩
  · intro i h2
    simp [fillBuffer, h2]
  · intro i hi
    simp [fillBuffer, Nat.not_lt.mpr hi]

/-- C5 witness: a one-sample block over a buffer whose entries all hold
`3 + 4i` overwrites entry 0 and leaves entry 9 stale. -/
theorem audio_partial_block_keeps_stale_tail_witness :
    fillBuffer (fun _ => { re := 3, im := 4 }) [5] ⟨0, by decide⟩ = { re := 5, im := 0 } ∧
    fillBuffer (fun _ => { re := 3, im := 4 }) [5] ⟨9, by decide⟩ = { re := 3, im := 4 } := by
  have h := audio_partial_block_keeps_stale_tail id (fun _ => { re := 3, im := 4 }) [5]
    (by decide)
  exact ⟨h.2.1 ⟨0, by decide⟩ (by decide), h.2.2 ⟨9, by decide⟩ (by decide)⟩

/-- C6: a callback delivering exactly 1024 samples emits a spectrum frame
of exactly 1024 magnitudes; each emitted value is the Euclidean norm of a
transformed complex bin and hence non-negative. -/
theorem audio_full_block_spectrum
    (fft : (Fin fft_size → Cx) → Fin fft_size → Cx) (buffer : Fin fft_size → Cx)
    (data : List ℚ) (h : data.length = 1024) :
    (audioCallback fft buffer data).2.length = 1024 ∧
    (∀ m ∈ (audioCallback fft buffer data).2,
        ∃ i : Fin fft_size, m = ((audioCallback fft buffer data).1 i).norm) ∧
    ∀ m ∈ (audioCallback fft buffer data).2, (0 : ℝ) ≤ m := by
  refine ⟨by rw [audioCallback_snd, List.length_ofFn]; rfl, ?_, ?_⟩
  · intro m hm
    rw [audioCallback_snd, List.mem_ofFn] at hm
    obtain ⟨i, hi⟩ := hm
    rw [audioCallback_fst]
    exact ⟨i, hi.symm⟩
  · intro m hm
    rw [audioCallback_snd, List.mem_ofFn] at hm
    obtain ⟨i, hi⟩ := hm
    rw [← hi]
    exact Real.sqrt_nonneg _

/-- C6 witness: the identity transform on the zero buffer with a block of
1024 zero samples. -/
theorem audio_full_block_spectrum_witness :
    (audioCallback id (fun _ => { re := 0, im := 0 }) (List.replicate 1024 0)).2.length
        = 1024 ∧
    (∀ m ∈ (audioCallback id (fun _ => { re := 0, im := 0 }) (List.replicate 1024 0)).2,
        ∃ i : Fin fft_size,
          m = ((audioCallback id (fun _ => { re := 0, im := 0 })
              (List.replicate 1024 0)).1 i).norm) ∧
    ∀ m ∈ (audioCallback id (fun _ => { re := 0, im := 0 }) (List.replicate 1024 0)).2,
      (0 : ℝ) ≤ m :=
  audio_full_block_spectrum id (fun _ => { re := 0, im := 0 }) (List.replicate 1024 0)
    (by rw [List.length_replicate])

/-- C4 counterexample: saving `nanConfig` and loading it back yields the
default snapshot, which differs from `nanConfig` already at key `"B"` — the
round trip is not the identity on every snapshot. -/
theorem save_load_roundtrip_fails_on_nan :
    ¬ equivSnapshot (Config.load (Config.save nanConfig (fun _ => none) "config.json")
        "config.json") nanConfig := by
  intro hEq
  exact absurd (hEq "B") (by decide)

/-- C4 (amended): for every snapshot all of whose opacity values are finite
(fade and channel being `u64` / `u8` values, i.e. in range), `Config::save`
followed by `Config::load` of the same path reproduces an equivalent
snapshot. -/
theorem save_load_roundtrip_finite (cfg : Config) (fs : FileSystem) (path : String)
    (h : ∀ p ∈ cfg.layers, p.2.opacity.isFinite = true ∧
        p.2.fade_ms < 2 ^ 64 ∧ p.2.midi_channel < 256) :
    equivSnapshot (Config.load (Config.save cfg fs path) path) cfg := by
  have hload : Config.load (Config.save cfg fs path) path = cfg := by
    simp [Config.load, Config.save, config_fromJson_toJson cfg h]
  rw [hload]
  intro k
  rfl

/-- C4 witness: round trip of a concrete two-layer snapshot with finite
opacities. -/
theorem save_load_roundtrip_finite_witness :
    equivSnapshot
      (Config.load (Config.save
        { layers := [("A", { opacity := F32.finite 1, fade_ms := 200, thumbnail := "",
                             midi_channel := 14 }),
                     ("K", { opacity := F32.finite 3, fade_ms := 9, thumbnail := "th",
                             midi_channel := 2 })] }
        (fun _ => none) "config.json") "config.json")
      { layers := [("A", { opacity := F32.finite 1, fade_ms := 200, thumbnail := "",
                           midi_channel := 14 }),
                   ("K", { opacity := F32.finite 3, fade_ms := 9, thumbnail := "th",
                           midi_channel := 2 })] } :=
  save_load_roundtrip_finite _ (fun _ => none) "config.json" (by decide)

end JungleLab
